import Mathlib

/-!
Verification of the Zeno crawler core (`internal/pkg/crawl`): the WARC
archival path (`warc.go`) and the capture orchestrator (`capture.go`).

The Go code is shallowly embedded as pure Lean functions.  Effects are made
explicit:

* the scratch file system is a list of `(path, contents)` pairs threaded
  through the functions (`FS`);
* outcomes of external fallible operations (`os.OpenFile`, `resp.Write`,
  `httputil.DumpResponse`, `httputil.DumpRequestOut`, `http.Get`,
  `ioutil.ReadAll`, the chromedp actions) are inputs of the embedding, one
  flag or `Option`/`Except` value per call site in the source;
* the batch handed to the WARC writer channel and whether the producer
  blocked on the batch's `Done` channel are returned as data;
* the concurrent body of `writeWARCFromConnection` is embedded as a labelled
  transition system over the phases of its two drain goroutines and of the
  main goroutine, with the `sizedwaitgroup` semaphore occupancy modelled
  explicitly (`Add` is never called in the source, so no tokens are ever
  put into the semaphore channel).

`url.QueryEscape` and the UTF-8 encoding it works on are reimplemented
byte-for-byte from the Go standard library behaviour.  `extractOutlinks` and
`needBrowser` live outside the two source files and are treated as opaque
inputs: the extraction function is a parameter, the probe result a boolean
input.
-/

namespace Zeno

/-! ### WARC record headers (CorentinB/warc `Header`, a string map) -/

/-- Header.Set of the warc library: a map update, modelled on an
association list where the most recent binding shadows older ones. -/
def hdrSet (h : List (String × String)) (k v : String) : List (String × String) :=
  (k, v) :: h.filter (fun e => e.1 != k)

/-- Lookup of a header key. -/
def hdrGet (h : List (String × String)) (k : String) : Option String :=
  (h.find? (fun e => e.1 == k)).map (fun e => e.2)

/-! ### Go `url.QueryEscape` -/

/-- Uppercase hexadecimal digit, as used by Go's percent-encoder. -/
def hexUpper (n : Nat) : Char :=
  if n < 10 then Char.ofNat (48 + n) else Char.ofNat (55 + n)

/-- UTF-8 byte sequence of one character (byte values as `Nat`). -/
def utf8Bytes (c : Char) : List Nat :=
  let v := c.toNat
  if v < 128 then [v]
  else if v < 2048 then [192 + v / 64, 128 + v % 64]
  else if v < 65536 then [224 + v / 4096, 128 + v / 64 % 64, 128 + v % 64]
  else [240 + v / 262144, 128 + v / 4096 % 64, 128 + v / 64 % 64, 128 + v % 64]

/-- Go `url.QueryEscape` treatment of one byte: space becomes a plus sign,
ASCII alphanumerics and `-` `_` `.` `~` stay, everything else becomes
percent followed by two uppercase hex digits. -/
def escapeByte (b : Nat) : List Char :=
  if b = 32 then ['+']
  else if (48 ≤ b ∧ b ≤ 57) ∨ (65 ≤ b ∧ b ≤ 90) ∨ (97 ≤ b ∧ b ≤ 122)
      ∨ b = 45 ∨ b = 95 ∨ b = 46 ∨ b = 126 then [Char.ofNat b]
  else ['%', hexUpper (b / 16), hexUpper (b % 16)]

/-- Go `url.QueryEscape`: percent-encode the UTF-8 bytes of the string. -/
def queryEscape (s : String) : String :=
  String.mk (((s.data.map utf8Bytes).flatten.map escapeByte).flatten)

/-! ### Scratch file system -/

/-- File system state: association list of path and contents, newest first. -/
abbrev FS := List (String × String)

/-- Contents of the file at a path, if present. -/
def FS.lookup (fs : FS) (p : String) : Option String :=
  (fs.find? (fun e => e.1 == p)).map (fun e => e.2)

/-- os.OpenFile with O_APPEND, O_CREATE, O_WRONLY: an empty file appears. -/
def FS.create (fs : FS) (p : String) : FS := (p, "") :: fs

/-- Appending bytes to the file at a path. -/
def FS.append (fs : FS) (p s : String) : FS :=
  fs.map (fun e => if e.1 == p then (e.1, e.2 ++ s) else e)

/-- os.Remove: the file at the path disappears. -/
def FS.remove (fs : FS) (p : String) : FS := fs.filter (fun e => e.1 != p)

/-! ### Data model of the crawl and of one HTTP exchange -/

/-- The fields of the `Crawl` struct that the two source files read. -/
structure Crawl where
  jobPath : String
  maxHops : Nat
  headless : Bool

/-- One completed `http.Response` together with the outcomes of the fallible
standard-library calls `writeWARC` performs on it.  `serialized` is the wire
serialization of the response, produced identically by `resp.Write` and by
`httputil.DumpResponse(resp, true)`; `reqDump` is the result of
`httputil.DumpRequestOut(resp.Request, true)` (`none` means the call errors). -/
structure Response where
  contentLength : Int
  serialized : String
  dumpRespOk : Bool
  writeOk : Bool
  reqUrl : String
  reqHost : String
  reqDump : Option String

/-- A WARC record as handed to the writer: headers, in-memory content
(`Content`, `none` when unset) and `PayloadPath` (empty string when unset,
as in the Go struct). -/
structure Record where
  header : List (String × String)
  content : Option String
  payloadPath : String
deriving DecidableEq

/-- A record batch: the records in order, and whether the `Done` completion
channel was set on the batch before submission. -/
structure RecordBatch where
  records : List Record
  hasDone : Bool
deriving DecidableEq

/-! ### dumpResponseToFile and writeWARC -/

/-- The spool file path `filepath.Join(c.JobPath, "temp", UUID+".temp")`. -/
def tempFilePath (jobPath uuid : String) : String :=
  jobPath ++ "/temp/" ++ uuid ++ ".temp"

/-- Crawl.dumpResponseToFile: create a uniquely named file under the temp
directory, write the response serialization into it, remove the file again
when the write fails.  Returns the Go pair (path, error as a flag) together
with the file system after the call.  `openOk` is the outcome of
`os.OpenFile`, `resp.writeOk` the outcome of `resp.Write(file)`. -/
def dumpResponseToFile (c : Crawl) (resp : Response) (uuid : String) (openOk : Bool)
    (fs : FS) : (String × Bool) × FS :=
  let filePath := tempFilePath c.jobPath uuid
  if openOk then
    let fs1 := FS.create fs filePath
    if resp.writeOk then
      ((filePath, false), FS.append fs1 filePath resp.serialized)
    else
      (("", true), FS.remove fs1 filePath)
  else
    (("", true), fs)

/-- The response record headers that `writeWARC` sets before branching on
the content length.  The source never sets a Host header on this record. -/
def responseRecordHeader (resp : Response) : List (String × String) :=
  hdrSet (hdrSet (hdrSet []
    "WARC-Type" "response")
    "WARC-Target-URI" (queryEscape resp.reqUrl))
    "Content-Type" "application/http; msgtype=response"

/-- The request record that `writeWARC` builds from the request dump. -/
def requestRecordOf (resp : Response) (d : String) : Record :=
  { header := hdrSet (hdrSet (hdrSet (hdrSet []
      "WARC-Type" "request")
      "WARC-Target-URI" (queryEscape resp.reqUrl))
      "Host" resp.reqHost)
      "Content-Type" "application/http; msgtype=request"
    content := some d
    payloadPath := "" }

/-- Everything `writeWARC` observably does in one value: the returned Go
pair (path, error flag), the file system after the call, the batch submitted
to `c.WARCWriter` (if the call got that far) and whether the call blocked on
the batch's `Done` channel before returning. -/
structure WriteWARCOut where
  path : String
  errored : Bool
  fs : FS
  batch : Option RecordBatch
  waited : Bool
deriving DecidableEq

/-- Lines 163-193 of warc.go, from the request dump on: on dump failure
remove the (possibly empty) response path and return the error; otherwise
build the request record, append response then request record to the batch,
and submit — setting `Done` and waiting on it exactly when `responsePath`
is the nonempty path of a spool file. -/
def writeWARCRest (resp : Response) (responseRecord : Record) (responsePath : String)
    (fs : FS) : WriteWARCOut :=
  match resp.reqDump with
  | none => ⟨responsePath, true, FS.remove fs responsePath, none, false⟩
  | some d =>
    let batchRecords := [responseRecord, requestRecordOf resp d]
    if responsePath ≠ "" then
      ⟨responsePath, false, fs, some ⟨batchRecords, true⟩, true⟩
    else
      ⟨responsePath, false, fs, some ⟨batchRecords, false⟩, false⟩

/-- Crawl.writeWARC: build the response record; spool the response to disk
when the content length is unknown (-1) or above 2097152 bytes, otherwise
dump it in memory; then dump the request and submit the two-record batch. -/
def writeWARC (c : Crawl) (resp : Response) (uuid : String) (openOk : Bool)
    (fs : FS) : WriteWARCOut :=
  if resp.contentLength = -1 ∨ 2097152 < resp.contentLength then
    match dumpResponseToFile c resp uuid openOk fs with
    | ((p, true), fs1) => ⟨p, true, fs1, none, false⟩
    | ((p, false), fs1) =>
      writeWARCRest resp
        { header := responseRecordHeader resp, content := none, payloadPath := p } p fs1
  else
    if resp.dumpRespOk then
      writeWARCRest resp
        { header := responseRecordHeader resp, content := some resp.serialized
          payloadPath := "" } "" fs
    else
      ⟨"", true, fs, none, false⟩

/-- The records of the batch a call submitted, empty if no batch was sent. -/
def submittedRecords (o : WriteWARCOut) : List Record :=
  match o.batch with
  | some b => b.records
  | none => []

/-! ### writeWARCFromConnection

The streaming path builds its two records inside two goroutines, then the
main goroutine calls `swg.Wait()` and receives twice from an unbuffered
channel.  The records the goroutines construct are pure values
(`connRequestRecord`, `connResponseRecord`); the interleaving of the three
goroutines and of the `sizedwaitgroup` semaphore is a transition system. -/

/-- The request record built by the first goroutine of
`writeWARCFromConnection` from the drained request bytes; the target URI is
`URL.String()` (not query-escaped on this path). -/
def connRequestRecord (urlStr urlHost body : String) : Record :=
  { header := hdrSet (hdrSet (hdrSet (hdrSet []
      "WARC-Type" "request")
      "WARC-Target-URI" urlStr)
      "Host" urlHost)
      "Content-Type" "application/http; msgtype=request"
    content := some body
    payloadPath := "" }

/-- The response record built by the second goroutine of
`writeWARCFromConnection` from the drained response bytes. -/
def connResponseRecord (urlStr urlHost body : String) : Record :=
  { header := hdrSet (hdrSet (hdrSet (hdrSet []
      "WARC-Type" "response")
      "WARC-Target-URI" urlStr)
      "Host" urlHost)
      "Content-Type" "application/http; msgtype=response"
    content := some body
    payloadPath := "" }

/-- Phase of one drain goroutine: copying its pipe into the buffer, blocked
sending its record on the unbuffered channel, blocked inside the deferred
`swg.Done()` (which first receives from the semaphore channel), or past that
receive. -/
inductive DrainPhase
  | copying
  | sending
  | doneWaiting
  | released
deriving DecidableEq

/-- Phase of the main goroutine: inside `swg.Wait()`, receiving records
(`got` of them so far), or past the batch submission. -/
inductive AsmPhase
  | waiting
  | receiving (got : Nat)
  | submitted
deriving DecidableEq

/-- Global state of one `writeWARCFromConnection` call: the two drain
goroutines, the main goroutine, and the occupancy of the `sizedwaitgroup`
semaphore channel (`swg.Add` sends a token, `swg.Done` receives one; the
source never calls `Add`, so the occupancy starts at zero). -/
structure ConnState where
  req : DrainPhase
  resp : DrainPhase
  main : AsmPhase
  tokens : Nat
deriving DecidableEq

/-- Initial state of a call: both drains copying, main about to wait, no
semaphore token. -/
def connInit : ConnState := ⟨.copying, .copying, .waiting, 0⟩

/-- Interleaving steps of `writeWARCFromConnection`.  `passBarrier` is
enabled unconditionally: the inner `sync.WaitGroup` of the sizedwaitgroup
holds the count of `Add` calls not yet matched by `Done`, and `Add` is never
called, so its counter is zero and `Wait` returns at once.  A drain delivers
its record only by rendezvous with a main-goroutine receive; the deferred
`swg.Done()` then blocks until a semaphore token exists. -/
inductive connStep : ConnState → ConnState → Prop
  | reqCopied (r m t) :
      connStep ⟨.copying, r, m, t⟩ ⟨.sending, r, m, t⟩
  | respCopied (q m t) :
      connStep ⟨q, .copying, m, t⟩ ⟨q, .sending, m, t⟩
  | passBarrier (q r t) :
      connStep ⟨q, r, .waiting, t⟩ ⟨q, r, .receiving 0, t⟩
  | reqDelivered (r k t) : k < 2 →
      connStep ⟨.sending, r, .receiving k, t⟩ ⟨.doneWaiting, r, .receiving (k + 1), t⟩
  | respDelivered (q k t) : k < 2 →
      connStep ⟨q, .sending, .receiving k, t⟩ ⟨q, .doneWaiting, .receiving (k + 1), t⟩
  | submitBatch (q r t) :
      connStep ⟨q, r, .receiving 2, t⟩ ⟨q, r, .submitted, t⟩
  | reqReleased (r m t) :
      connStep ⟨.doneWaiting, r, m, t + 1⟩ ⟨.released, r, m, t⟩
  | respReleased (q m t) :
      connStep ⟨q, .doneWaiting, m, t + 1⟩ ⟨q, .released, m, t⟩

/-- States a `writeWARCFromConnection` call can reach. -/
def connReachable (s : ConnState) : Prop :=
  Relation.ReflTransGen connStep connInit s

/-- How many of the two drain goroutines have delivered their record and
are blocked in the deferred `swg.Done()`. -/
def countDone (s : ConnState) : Nat :=
  (if s.req = DrainPhase.doneWaiting then 1 else 0)
    + (if s.resp = DrainPhase.doneWaiting then 1 else 0)

/-! ### Capture orchestrator -/

/-- Result of one capture strategy: the outlinks returned, whether the Go
function returned a non-nil error, and whether `extractOutlinks` was
invoked during the call. -/
structure FetchOut where
  outlinks : List String
  errored : Bool
  attempted : Bool
deriving DecidableEq

/-- Outcomes of the chromedp calls inside `captureWithBrowser`: whether
`network.Enable` and `chromedp.Navigate` succeed, and the outer HTML the
`dom.GetDocument` and `dom.GetOuterHTML` pair produces (error collapses the
two fallible calls). -/
structure BrowserEnv where
  navOk : Bool
  doc : Except Unit String

/-- Outcomes of the calls inside `captureWithGET`: whether `http.Get`
succeeds and what `ioutil.ReadAll(resp.Body)` produces. -/
structure GetEnv where
  getOk : Bool
  readResult : Except Unit String

/-- Crawl.captureWithBrowser: navigate, and only when the configured hop
limit is positive fetch the rendered document and extract outlinks from it.
The extraction function is the external `extractOutlinks`. -/
def captureWithBrowser (extract : String → List String) (maxHops : Nat)
    (env : BrowserEnv) : FetchOut :=
  if env.navOk then
    if 0 < maxHops then
      match env.doc with
      | .ok str => ⟨extract str, false, true⟩
      | .error _ => ⟨[], true, false⟩
    else ⟨[], false, false⟩
  else ⟨[], true, false⟩

/-- Crawl.captureWithGET: one GET, read the whole body, extract outlinks
from it unconditionally. -/
def captureWithGET (extract : String → List String) (env : GetEnv) : FetchOut :=
  if env.getOk then
    match env.readResult with
    | .ok body => ⟨extract body, false, true⟩
    | .error _ => ⟨[], true, false⟩
  else ⟨[], true, false⟩

/-- Inputs of one `Capture` call that come from outside the two source
files: the `needBrowser(item)` probe result and the environments of the two
strategies. -/
structure CaptureEnv where
  needsBrowser : Bool
  browserEnv : BrowserEnv
  getEnv : GetEnv

/-- Result of `Capture`: outlinks, error flag, and the shared
`URLsPerSecond` counter after the call. -/
structure CaptureOut where
  outlinks : List String
  errored : Bool
  counter : Nat
deriving DecidableEq

/-- Crawl.Capture: pick the strategy, run it, increment the shared rate
counter once, and return nil outlinks on error. -/
def Capture (c : Crawl) (extract : String → List String) (env : CaptureEnv)
    (counter : Nat) : CaptureOut :=
  let r :=
    if env.needsBrowser && c.headless then
      captureWithBrowser extract c.maxHops env.browserEnv
    else
      captureWithGET extract env.getEnv
  let counter1 := counter + 1
  if r.errored then ⟨[], true, counter1⟩ else ⟨r.outlinks, false, counter1⟩

/-! ### Invariant of the writeWARCFromConnection transition system -/

/-- Inductive invariant: the semaphore never holds a token (nothing ever
calls `swg.Add`), hence no drain goroutine ever gets past its deferred
`swg.Done()`; and the number of records the main goroutine has received is
exactly the number of drains blocked in `Done` — two once the batch is
submitted. -/
def connInv (s : ConnState) : Prop :=
  s.tokens = 0 ∧ s.req ≠ DrainPhase.released ∧ s.resp ≠ DrainPhase.released ∧
  (match s.main with
   | .waiting => countDone s = 0
   | .receiving k => countDone s = k
   | .submitted => countDone s = 2)

/-- Statement of the property a record's headers are checked against: the
four headers written for a record of one captured exchange. -/
def recordHasHeaders (r : Record) (ty uri ct : String) (host : Option String) : Prop :=
  hdrGet r.header "WARC-Type" = some ty ∧
  hdrGet r.header "WARC-Target-URI" = some uri ∧
  hdrGet r.header "Host" = host ∧
  hdrGet r.header "Content-Type" = some ct

/-! ### Concrete instances used by counterexamples and witnesses -/

/-- A crawl with hop limit zero and headless disabled. -/
def crawl0 : Crawl := { jobPath := "job", maxHops := 0, headless := false }

/-- A response of known small content length, all external calls succeed. -/
def respSmall : Response := ⟨10, "RS", true, true, "u", "h", some "RQ"⟩

/-- A response whose content length is exactly 2097152 bytes. -/
def respEdge : Response := ⟨2097152, "RS", true, true, "u", "h", some "RQ"⟩

/-- A response of unknown content length, all external calls succeed. -/
def respSpool : Response := ⟨-1, "RS", true, true, "u", "h", some "RQ"⟩

/-- A response of unknown length whose request dump fails. -/
def respDumpFail : Response := ⟨-1, "RS", true, true, "u", "h", none⟩

/-- writeWARC run on the small in-memory response. -/
def outSmall : WriteWARCOut := writeWARC crawl0 respSmall "u0" true []

/-- writeWARC run on the 2097152-byte response. -/
def outEdge : WriteWARCOut := writeWARC crawl0 respEdge "u0" true []

/-- writeWARC run on the unknown-length (spooled) response. -/
def outSpool : WriteWARCOut := writeWARC crawl0 respSpool "u0" true []

/-- A concrete outlink extraction function. -/
def ex0 : String → List String := fun _ => ["o"]

/-- A browser environment where navigation and document retrieval succeed. -/
def benv0 : BrowserEnv := ⟨true, Except.ok "doc"⟩

/-- A GET environment where the fetch and the body read succeed. -/
def genv0 : GetEnv := ⟨true, Except.ok "B"⟩

/-- A capture environment taking the direct-fetch branch. -/
def cenv0 : CaptureEnv := ⟨false, benv0, genv0⟩

/-! ### Helper lemmas about the file system model -/

lemma string_empty_append (s : String) : "" ++ s = s := by
  cases s
  rfl

lemma tempFilePath_ne_empty (jobPath uuid : String) :
    tempFilePath jobPath uuid ≠ "" := by
  intro h
  have h2 := congrArg String.length h
  simp [tempFilePath, String.length_append] at h2
  exact absurd h2.2 (by decide)

lemma FS.lookup_remove_self (fs : FS) (p : String) :
    FS.lookup (FS.remove fs p) p = none := by
  have h : (FS.remove fs p).find? (fun e => e.1 == p) = none := by
    rw [List.find?_eq_none]
    intro e he
    have := List.of_mem_filter he
    simpa [bne] using this
  simp [FS.lookup, h]

lemma FS.lookup_remove_none (fs : FS) (p q : String) (h : FS.lookup fs p = none) :
    FS.lookup (FS.remove fs q) p = none := by
  have h1 : fs.find? (fun e => e.1 == p) = none := by
    cases hf : fs.find? (fun e => e.1 == p) with
    | none => rfl
    | some e => simp [FS.lookup, hf] at h
  rw [List.find?_eq_none] at h1
  have h2 : (FS.remove fs q).find? (fun e => e.1 == p) = none := by
    rw [List.find?_eq_none]
    intro e he
    exact h1 e (List.mem_of_mem_filter he)
  simp [FS.lookup, h2]

lemma FS.remove_of_lookup_none (fs : FS) (p : String) (h : FS.lookup fs p = none) :
    FS.remove fs p = fs := by
  have h1 : fs.find? (fun e => e.1 == p) = none := by
    cases hf : fs.find? (fun e => e.1 == p) with
    | none => rfl
    | some e => simp [FS.lookup, hf] at h
  rw [List.find?_eq_none] at h1
  exact List.filter_eq_self.mpr fun e he => by
    have := h1 e he
    simpa [bne] using this

lemma FS.lookup_append_create (fs : FS) (p s : String) :
    FS.lookup (FS.append (FS.create fs p) p s) p = some s := by
  simp [FS.lookup, FS.append, FS.create, List.find?, string_empty_append]

/-! ### The shape of a successful writeWARC call -/

/-- Case analysis of `writeWARC` runs that submitted a batch: the request
dump succeeded, and either the response was buffered in memory (known
content length, not above the 2097152-byte threshold, `DumpResponse`
succeeded, file system untouched, no `Done` wait), or it was spooled (the
response record carries the spool path and no content, the batch carries a
`Done` channel and the call waited on it). -/
lemma writeWARC_shape (c : Crawl) (resp : Response) (uuid : String) (openOk : Bool)
    (fs : FS) (b : RecordBatch)
    (hb : (writeWARC c resp uuid openOk fs).batch = some b) :
    ∃ d, resp.reqDump = some d ∧
      ((¬(resp.contentLength = -1 ∨ 2097152 < resp.contentLength) ∧
          resp.dumpRespOk = true ∧
          writeWARC c resp uuid openOk fs =
            ⟨"", false, fs,
              some ⟨[{ header := responseRecordHeader resp,
                       content := some resp.serialized, payloadPath := "" },
                     requestRecordOf resp d], false⟩, false⟩) ∨
       ((resp.contentLength = -1 ∨ 2097152 < resp.contentLength) ∧
          openOk = true ∧ resp.writeOk = true ∧
          writeWARC c resp uuid openOk fs =
            ⟨tempFilePath c.jobPath uuid, false,
              FS.append (FS.create fs (tempFilePath c.jobPath uuid))
                (tempFilePath c.jobPath uuid) resp.serialized,
              some ⟨[{ header := responseRecordHeader resp,
                       content := none,
                       payloadPath := tempFilePath c.jobPath uuid },
                     requestRecordOf resp d], true⟩, true⟩)) := by
  by_cases hcl : resp.contentLength = -1 ∨ 2097152 < resp.contentLength
  · cases hopen : openOk with
    | false =>
      rw [hopen] at hb
      simp [writeWARC, dumpResponseToFile, hcl] at hb
    | true =>
      rw [hopen] at hb
      cases hw : resp.writeOk with
      | false => simp [writeWARC, dumpResponseToFile, hcl, hw] at hb
      | true =>
        cases hd : resp.reqDump with
        | none => simp [writeWARC, writeWARCRest, dumpResponseToFile, hcl, hw, hd] at hb
        | some d =>
          refine ⟨d, rfl, Or.inr ⟨hcl, rfl, rfl, ?_⟩⟩
          simp [writeWARC, writeWARCRest, dumpResponseToFile, hcl, hw, hd,
            tempFilePath_ne_empty c.jobPath uuid]
  · cases hdr : resp.dumpRespOk with
    | false => simp [writeWARC, hcl, hdr] at hb
    | true =>
      cases hd : resp.reqDump with
      | none => simp [writeWARC, writeWARCRest, hcl, hdr, hd] at hb
      | some d =>
        refine ⟨d, rfl, Or.inl ⟨hcl, rfl, ?_⟩⟩
        simp [writeWARC, writeWARCRest, hcl, hdr, hd]

/-! ### Header computation lemmas -/

lemma responseRecord_headers (resp : Response) (ct : Option String) (pp : String) :
    recordHasHeaders ⟨responseRecordHeader resp, ct, pp⟩ "response"
      (queryEscape resp.reqUrl) "application/http; msgtype=response" none := by
  refine ⟨?_, ?_, ?_, ?_⟩ <;>
    simp [recordHasHeaders, responseRecordHeader, hdrSet, hdrGet]

lemma requestRecord_headers (resp : Response) (d : String) :
    recordHasHeaders (requestRecordOf resp d) "request"
      (queryEscape resp.reqUrl) "application/http; msgtype=request"
      (some resp.reqHost) := by
  refine ⟨?_, ?_, ?_, ?_⟩ <;>
    simp [recordHasHeaders, requestRecordOf, hdrSet, hdrGet]

lemma connRequestRecord_headers (u h d : String) :
    recordHasHeaders (connRequestRecord u h d) "request" u
      "application/http; msgtype=request" (some h) := by
  refine ⟨?_, ?_, ?_, ?_⟩ <;>
    simp [recordHasHeaders, connRequestRecord, hdrSet, hdrGet]

lemma connResponseRecord_headers (u h d : String) :
    recordHasHeaders (connResponseRecord u h d) "response" u
      "application/http; msgtype=response" (some h) := by
  refine ⟨?_, ?_, ?_, ?_⟩ <;>
    simp [recordHasHeaders, connResponseRecord, hdrSet, hdrGet]

/-! ### C1 — size-threshold policy of writeWARC -/

/-- C1 (amended): in the direct-fetch archive path, the response content is
buffered in memory exactly when the content length is known and at most
2,097,152 bytes; for a length strictly above 2,097,152 bytes or an unknown
length (-1) the response is spooled to the temp file and the record's
PayloadPath is set to that file, whose contents are the response
serialization. -/
theorem writeWARC_size_threshold (c : Crawl) (resp : Response) (uuid : String)
    (openOk : Bool) (fs : FS) (b : RecordBatch)
    (hb : (writeWARC c resp uuid openOk fs).batch = some b) :
    ∃ r q, b.records = [r, q] ∧
      (¬(resp.contentLength = -1 ∨ 2097152 < resp.contentLength) →
          r.content = some resp.serialized ∧ r.payloadPath = "" ∧
          (writeWARC c resp uuid openOk fs).fs = fs) ∧
      ((resp.contentLength = -1 ∨ 2097152 < resp.contentLength) →
          r.content = none ∧ r.payloadPath = tempFilePath c.jobPath uuid ∧
          FS.lookup (writeWARC c resp uuid openOk fs).fs
            (tempFilePath c.jobPath uuid) = some resp.serialized) := by
  obtain ⟨d, hd, hcase | hcase⟩ := writeWARC_shape c resp uuid openOk fs b hb
  · obtain ⟨hcl, hdr, heq⟩ := hcase
    rw [heq] at hb
    injection hb with hb2
    subst hb2
    refine ⟨_, _, rfl, fun _ => ⟨rfl, rfl, by rw [heq]⟩, fun hcond => absurd hcond hcl⟩
  · obtain ⟨hcl, hopen, hw, heq⟩ := hcase
    rw [heq] at hb
    injection hb with hb2
    subst hb2
    refine ⟨_, _, rfl, fun hcond => absurd hcl hcond, fun _ => ⟨rfl, rfl, ?_⟩⟩
    rw [heq]
    exact FS.lookup_append_create fs _ resp.serialized

/-- C1 witness: the spooled instance. -/
theorem writeWARC_size_threshold_witness :
    ∃ r q, ((outSpool.batch).getD ⟨[], false⟩).records = [r, q] ∧
      (¬(respSpool.contentLength = -1 ∨ 2097152 < respSpool.contentLength) →
          r.content = some respSpool.serialized ∧ r.payloadPath = "" ∧
          (writeWARC crawl0 respSpool "u0" true []).fs = []) ∧
      ((respSpool.contentLength = -1 ∨ 2097152 < respSpool.contentLength) →
          r.content = none ∧ r.payloadPath = tempFilePath crawl0.jobPath "u0" ∧
          FS.lookup (writeWARC crawl0 respSpool "u0" true []).fs
            (tempFilePath crawl0.jobPath "u0") = some respSpool.serialized) :=
  writeWARC_size_threshold crawl0 respSpool "u0" true []
    ((outSpool.batch).getD ⟨[], false⟩) rfl

/-- C1 counterexample: a response of known content length exactly 2097152
bytes is buffered in memory (content set, PayloadPath empty, no file
created), while the claim says a length of 2,097,152 bytes or more is
spooled to a temp file. -/
theorem writeWARC_threshold_boundary :
    respEdge.contentLength = 2097152 ∧
    outEdge.errored = false ∧
    outEdge.fs = [] ∧
    (submittedRecords outEdge).map Record.payloadPath = ["", ""] ∧
    (submittedRecords outEdge).map Record.content = [some "RS", some "RQ"] := by
  decide

/-! ### C3 — headers carried by the records -/

/-- C3 (amended): every record built for the archival writer carries
WARC-Type, WARC-Target-URI and Content-Type with the documented values;
Host is carried by the request record of the writeWARC path and by both
records of the writeWARCFromConnection path, but the response record of the
writeWARC path carries no Host header. -/
theorem record_headers (c : Crawl) (resp : Response) (uuid : String)
    (openOk : Bool) (fs : FS) (b : RecordBatch)
    (hb : (writeWARC c resp uuid openOk fs).batch = some b)
    (u h d : String) :
    (∃ r q, b.records = [r, q] ∧
      recordHasHeaders r "response" (queryEscape resp.reqUrl)
        "application/http; msgtype=response" none ∧
      recordHasHeaders q "request" (queryEscape resp.reqUrl)
        "application/http; msgtype=request" (some resp.reqHost)) ∧
    recordHasHeaders (connRequestRecord u h d) "request" u
      "application/http; msgtype=request" (some h) ∧
    recordHasHeaders (connResponseRecord u h d) "response" u
      "application/http; msgtype=response" (some h) := by
  refine ⟨?_, connRequestRecord_headers u h d, connResponseRecord_headers u h d⟩
  obtain ⟨d2, hd2, hcase | hcase⟩ := writeWARC_shape c resp uuid openOk fs b hb
  · obtain ⟨-, -, heq⟩ := hcase
    rw [heq] at hb
    injection hb with hb2
    subst hb2
    exact ⟨_, _, rfl, responseRecord_headers resp _ _, requestRecord_headers resp d2⟩
  · obtain ⟨-, -, -, heq⟩ := hcase
    rw [heq] at hb
    injection hb with hb2
    subst hb2
    exact ⟨_, _, rfl, responseRecord_headers resp _ _, requestRecord_headers resp d2⟩

/-- C3 witness: the in-memory instance and concrete connection records. -/
theorem record_headers_witness :
    (∃ r q, ((outSmall.batch).getD ⟨[], false⟩).records = [r, q] ∧
      recordHasHeaders r "response" (queryEscape respSmall.reqUrl)
        "application/http; msgtype=response" none ∧
      recordHasHeaders q "request" (queryEscape respSmall.reqUrl)
        "application/http; msgtype=request" (some respSmall.reqHost)) ∧
    recordHasHeaders (connRequestRecord "u" "h" "D") "request" "u"
      "application/http; msgtype=request" (some "h") ∧
    recordHasHeaders (connResponseRecord "u" "h" "D") "response" "u"
      "application/http; msgtype=response" (some "h") :=
  record_headers crawl0 respSmall "u0" true []
    ((outSmall.batch).getD ⟨[], false⟩) rfl "u" "h" "D"

/-- C3 counterexample: in the writeWARC path the submitted response record
has no Host header, while the claim says every record carries all four
headers including Host. -/
theorem writeWARC_response_host_missing :
    (submittedRecords outSmall).length = 2 ∧
    ((submittedRecords outSmall).head?.map
      (fun r => hdrGet r.header "WARC-Type")) = some (some "response") ∧
    ((submittedRecords outSmall).head?.map
      (fun r => hdrGet r.header "Host")) = some none := by
  decide

/-! ### C4 — Done channel set and awaited exactly for spooled batches -/

/-- C4: a successful writeWARC call sets the batch's Done channel, and
blocks on it, exactly when the batch contains a record backed by a
PayloadPath; an in-memory batch is submitted without Done and without
waiting. -/
theorem writeWARC_done_iff_payload (c : Crawl) (resp : Response) (uuid : String)
    (openOk : Bool) (fs : FS) (b : RecordBatch)
    (hb : (writeWARC c resp uuid openOk fs).batch = some b) :
    (b.hasDone = true ↔ ∃ r ∈ b.records, r.payloadPath ≠ "") ∧
    (writeWARC c resp uuid openOk fs).waited = b.hasDone := by
  obtain ⟨d, hd, hcase | hcase⟩ := writeWARC_shape c resp uuid openOk fs b hb
  · obtain ⟨-, -, heq⟩ := hcase
    rw [heq] at hb
    injection hb with hb2
    subst hb2
    refine ⟨⟨fun hfalse => by simp at hfalse, fun hex => ?_⟩, by rw [heq]⟩
    obtain ⟨r, hr, hne⟩ := hex
    simp [requestRecordOf] at hr
    rcases hr with h1 | h1 <;> rw [h1] at hne <;> simp at hne
  · obtain ⟨-, -, -, heq⟩ := hcase
    rw [heq] at hb
    injection hb with hb2
    subst hb2
    refine ⟨⟨fun _ => ?_, fun _ => rfl⟩, by rw [heq]⟩
    exact ⟨{ header := responseRecordHeader resp, content := none,
             payloadPath := tempFilePath c.jobPath uuid },
      by simp, tempFilePath_ne_empty c.jobPath uuid⟩

/-- C4 witness: the spooled instance sets Done and waits. -/
theorem writeWARC_done_iff_payload_witness :
    ((((outSpool.batch).getD ⟨[], false⟩).hasDone = true ↔
        ∃ r ∈ ((outSpool.batch).getD ⟨[], false⟩).records, r.payloadPath ≠ "") ∧
      (writeWARC crawl0 respSpool "u0" true []).waited
        = ((outSpool.batch).getD ⟨[], false⟩).hasDone) :=
  writeWARC_done_iff_payload crawl0 respSpool "u0" true []
    ((outSpool.batch).getD ⟨[], false⟩) rfl

/-! ### C5 — no spool file survives an erroring writeWARC call -/

/-- C5: when writeWARC returns an error (in particular when the request
dump fails after the response was spooled), the spool file of the call is
absent from the file system afterwards. -/
theorem writeWARC_error_no_spool_file (c : Crawl) (resp : Response) (uuid : String)
    (openOk : Bool) (fs : FS)
    (hfresh : FS.lookup fs (tempFilePath c.jobPath uuid) = none)
    (herr : (writeWARC c resp uuid openOk fs).errored = true) :
    FS.lookup (writeWARC c resp uuid openOk fs).fs
      (tempFilePath c.jobPath uuid) = none := by
  by_cases hcl : resp.contentLength = -1 ∨ 2097152 < resp.contentLength
  · cases hopen : openOk with
    | false =>
      have hout : writeWARC c resp uuid false fs = ⟨"", true, fs, none, false⟩ := by
        simp [writeWARC, dumpResponseToFile, hcl]
      rw [hout]
      exact hfresh
    | true =>
      cases hw : resp.writeOk with
      | false =>
        have hout : writeWARC c resp uuid true fs
            = ⟨"", true,
                FS.remove (FS.create fs (tempFilePath c.jobPath uuid))
                  (tempFilePath c.jobPath uuid), none, false⟩ := by
          simp [writeWARC, dumpResponseToFile, hcl, hw]
        rw [hout]
        exact FS.lookup_remove_self _ _
      | true =>
        cases hd : resp.reqDump with
        | none =>
          have hout : writeWARC c resp uuid true fs
              = ⟨tempFilePath c.jobPath uuid, true,
                  FS.remove
                    (FS.append (FS.create fs (tempFilePath c.jobPath uuid))
                      (tempFilePath c.jobPath uuid) resp.serialized)
                    (tempFilePath c.jobPath uuid), none, false⟩ := by
            simp [writeWARC, writeWARCRest, dumpResponseToFile, hcl, hw, hd]
          rw [hout]
          exact FS.lookup_remove_self _ _
        | some d =>
          rw [hopen] at herr
          rw [show (writeWARC c resp uuid true fs).errored = false by
            simp [writeWARC, writeWARCRest, dumpResponseToFile, hcl, hw, hd,
              tempFilePath_ne_empty c.jobPath uuid]] at herr
          cases herr
  · cases hdr : resp.dumpRespOk with
    | false =>
      have hout : writeWARC c resp uuid openOk fs = ⟨"", true, fs, none, false⟩ := by
        simp [writeWARC, hcl, hdr]
      rw [hout]
      exact hfresh
    | true =>
      cases hd : resp.reqDump with
      | none =>
        have hout : writeWARC c resp uuid openOk fs
            = ⟨"", true, FS.remove fs "", none, false⟩ := by
          simp [writeWARC, writeWARCRest, hcl, hdr, hd]
        rw [hout]
        exact FS.lookup_remove_none fs _ _ hfresh
      | some d =>
        rw [show (writeWARC c resp uuid openOk fs).errored = false by
          simp [writeWARC, writeWARCRest, hcl, hdr, hd]] at herr
        cases herr

/-- C5 witness: unknown length, spool succeeds, request dump fails; the
spool file is gone afterwards. -/
theorem writeWARC_error_no_spool_file_witness :
    FS.lookup (writeWARC crawl0 respDumpFail "u2" true []).fs
      (tempFilePath crawl0.jobPath "u2") = none :=
  writeWARC_error_no_spool_file crawl0 respDumpFail "u2" true [] rfl (by decide)

/-! ### C8 — batch holds exactly two records, response first -/

/-- C8: every batch a successful writeWARC call submits holds exactly two
records, the response record first and the request record second. -/
theorem writeWARC_batch_order (c : Crawl) (resp : Response) (uuid : String)
    (openOk : Bool) (fs : FS) (b : RecordBatch)
    (hb : (writeWARC c resp uuid openOk fs).batch = some b) :
    ∃ r q, b.records = [r, q] ∧
      hdrGet r.header "WARC-Type" = some "response" ∧
      hdrGet q.header "WARC-Type" = some "request" := by
  obtain ⟨d, hd, hcase | hcase⟩ := writeWARC_shape c resp uuid openOk fs b hb
  · obtain ⟨-, -, heq⟩ := hcase
    rw [heq] at hb
    injection hb with hb2
    subst hb2
    exact ⟨_, _, rfl, (responseRecord_headers resp _ _).1,
      (requestRecord_headers resp d).1⟩
  · obtain ⟨-, -, -, heq⟩ := hcase
    rw [heq] at hb
    injection hb with hb2
    subst hb2
    exact ⟨_, _, rfl, (responseRecord_headers resp _ _).1,
      (requestRecord_headers resp d).1⟩

/-- C8 witness: the in-memory instance. -/
theorem writeWARC_batch_order_witness :
    ∃ r q, ((outSmall.batch).getD ⟨[], false⟩).records = [r, q] ∧
      hdrGet r.header "WARC-Type" = some "response" ∧
      hdrGet q.header "WARC-Type" = some "request" :=
  writeWARC_batch_order crawl0 respSmall "u0" true []
    ((outSmall.batch).getD ⟨[], false⟩) rfl

/-! ### C10 — dumpResponseToFile creates the file or cleans up -/

/-- C10: dumpResponseToFile either succeeds, returning the fresh
{JobPath}/temp/{uuid}.temp path whose file holds the full response
serialization, or errors leaving the file system as it was: no file when
opening failed, and the partial file removed when writing failed. -/
theorem dumpResponseToFile_spec (c : Crawl) (resp : Response) (uuid : String)
    (openOk : Bool) (fs : FS)
    (hfresh : FS.lookup fs (tempFilePath c.jobPath uuid) = none) :
    ((dumpResponseToFile c resp uuid openOk fs).1.2 = true →
        (dumpResponseToFile c resp uuid openOk fs).2 = fs) ∧
    ((dumpResponseToFile c resp uuid openOk fs).1.2 = false →
        (dumpResponseToFile c resp uuid openOk fs).1.1 = tempFilePath c.jobPath uuid ∧
        FS.lookup (dumpResponseToFile c resp uuid openOk fs).2
          (tempFilePath c.jobPath uuid) = some resp.serialized) := by
  cases hopen : openOk with
  | false =>
    refine ⟨fun _ => rfl, fun hfalse => ?_⟩
    simp [dumpResponseToFile] at hfalse
  | true =>
    cases hw : resp.writeOk with
    | false =>
      have hdf : dumpResponseToFile c resp uuid true fs
          = (("", true),
             FS.remove (FS.create fs (tempFilePath c.jobPath uuid))
               (tempFilePath c.jobPath uuid)) := by
        simp [dumpResponseToFile, hw]
      rw [hdf]
      refine ⟨fun _ => ?_, fun hfalse => by cases hfalse⟩
      rw [show FS.remove (FS.create fs (tempFilePath c.jobPath uuid))
          (tempFilePath c.jobPath uuid)
          = FS.remove fs (tempFilePath c.jobPath uuid) by
        simp [FS.remove, FS.create]]
      exact FS.remove_of_lookup_none fs _ hfresh
    | true =>
      have hdf : dumpResponseToFile c resp uuid true fs
          = ((tempFilePath c.jobPath uuid, false),
             FS.append (FS.create fs (tempFilePath c.jobPath uuid))
               (tempFilePath c.jobPath uuid) resp.serialized) := by
        simp [dumpResponseToFile, hw]
      rw [hdf]
      exact ⟨fun htrue => absurd htrue (by simp),
        fun _ => ⟨rfl, FS.lookup_append_create fs _ resp.serialized⟩⟩

/-! ### C6 — the rate counter is incremented exactly once per Capture -/

/-- C6: every completed Capture call increments the shared URLsPerSecond
counter by exactly one, whichever strategy ran and whether or not it
errored. -/
theorem Capture_counter_once (c : Crawl) (extract : String → List String)
    (env : CaptureEnv) (counter : Nat) :
    (Capture c extract env counter).counter = counter + 1 := by
  simp only [Capture]
  split <;> split <;> rfl

/-! ### C7 — browser variant skips extraction at hop limit zero -/

/-- C7: with a hop limit of zero, captureWithBrowser never attempts outlink
extraction and returns an empty outlink set, whatever the page content and
fetch outcomes; extraction is attempted only under a positive hop limit. -/
theorem captureWithBrowser_zero_hops (extract : String → List String)
    (env : BrowserEnv) :
    (captureWithBrowser extract 0 env).outlinks = [] ∧
    (captureWithBrowser extract 0 env).attempted = false ∧
    ∀ hops : Nat, (captureWithBrowser extract hops env).attempted = true → 0 < hops := by
  refine ⟨?_, ?_, ?_⟩
  · cases hn : env.navOk <;> simp [captureWithBrowser, hn]
  · cases hn : env.navOk <;> simp [captureWithBrowser, hn]
  · intro hops hat
    cases hops with
    | zero =>
      cases hn : env.navOk <;> simp [captureWithBrowser, hn] at hat
    | succ n => exact Nat.succ_pos n

/-- C7 witness: a concrete successful render, zero hops versus one hop. -/
theorem captureWithBrowser_zero_hops_witness :
    (captureWithBrowser ex0 0 benv0).outlinks = [] ∧ 0 < 1 :=
  ⟨(captureWithBrowser_zero_hops ex0 benv0).1,
   (captureWithBrowser_zero_hops ex0 benv0).2.2 1 (by decide)⟩

/-! ### C9 — direct fetch extracts outlinks even at hop limit zero -/

/-- C9: on the direct-fetch branch a successful GET always reads the body
and runs outlink extraction on it, returning the extracted set, also when
the crawl's hop limit is zero; captureWithGET never consults the hop
limit. -/
theorem captureWithGET_extracts_at_zero_hops (c : Crawl)
    (extract : String → List String) (env : CaptureEnv) (counter : Nat)
    (body : String)
    (hhops : c.maxHops = 0)
    (hbranch : (env.needsBrowser && c.headless) = false)
    (hget : env.getEnv.getOk = true)
    (hread : env.getEnv.readResult = Except.ok body) :
    (Capture c extract env counter).outlinks = extract body ∧
    (Capture c extract env counter).errored = false ∧
    (captureWithGET extract env.getEnv).attempted = true := by
  have hfo : captureWithGET extract env.getEnv = ⟨extract body, false, true⟩ := by
    simp [captureWithGET, hget, hread]
  refine ⟨?_, ?_, ?_⟩ <;> simp [Capture, hbranch, hfo]

/-- C9 witness: hop limit zero, direct branch, successful GET of body B. -/
theorem captureWithGET_extracts_at_zero_hops_witness :
    (Capture crawl0 ex0 cenv0 0).outlinks = ex0 "B" ∧
    (Capture crawl0 ex0 cenv0 0).errored = false ∧
    (captureWithGET ex0 cenv0.getEnv).attempted = true :=
  captureWithGET_extracts_at_zero_hops crawl0 ex0 cenv0 0 "B" rfl rfl rfl rfl

/-! ### C2 — the streaming path's completion barrier -/

lemma connInv_init : connInv connInit := by
  refine ⟨rfl, ?_, ?_, ?_⟩ <;> simp [connInit, countDone]

lemma connInv_step {s t : ConnState} (h : connStep s t) (hs : connInv s) :
    connInv t := by
  cases h with
  | reqCopied r m t0 =>
    obtain ⟨h1, h2, h3, h4⟩ := hs
    exact ⟨h1, by simp, h3, by cases m <;> simp_all [countDone]⟩
  | respCopied q m t0 =>
    obtain ⟨h1, h2, h3, h4⟩ := hs
    exact ⟨h1, h2, by simp, by cases m <;> simp_all [countDone]⟩
  | passBarrier q r t0 =>
    obtain ⟨h1, h2, h3, h4⟩ := hs
    exact ⟨h1, h2, h3, by simp_all [countDone]⟩
  | reqDelivered r k t0 hk =>
    obtain ⟨h1, h2, h3, h4⟩ := hs
    refine ⟨h1, by simp, h3, ?_⟩
    simp only [countDone] at h4 ⊢
    simp at h4 ⊢
    omega
  | respDelivered q k t0 hk =>
    obtain ⟨h1, h2, h3, h4⟩ := hs
    refine ⟨h1, h2, by simp, ?_⟩
    simp only [countDone] at h4 ⊢
    simp at h4 ⊢
    omega
  | submitBatch q r t0 =>
    obtain ⟨h1, h2, h3, h4⟩ := hs
    exact ⟨h1, h2, h3, by simp_all [countDone]⟩
  | reqReleased r m t0 =>
    exact absurd hs.1 (Nat.succ_ne_zero t0)
  | respReleased q m t0 =>
    exact absurd hs.1 (Nat.succ_ne_zero t0)

lemma connReachable_inv (s : ConnState) (h : connReachable s) : connInv s := by
  induction h with
  | refl => exact connInv_init
  | tail hab hbc ih => exact connInv_step hbc ih

/-- C2: behaviour of the writeWARCFromConnection interleaving.  The call
does terminate — a full run reaching batch submission with both records
delivered is reachable, and submission implies both drains delivered — but
the counted barrier never synchronizes anything: the main goroutine can
pass `swg.Wait()` before either stream has been drained (`swg.Add` is never
called, so the inner counter is zero), and no drain goroutine ever returns
from its deferred `swg.Done()` (the semaphore channel stays empty forever),
leaking both goroutines on every call. -/
theorem writeWARCFromConnection_barrier_bug :
    connReachable ⟨.doneWaiting, .doneWaiting, .submitted, 0⟩ ∧
    connReachable ⟨.copying, .copying, .receiving 0, 0⟩ ∧
    (∀ s, connReachable s →
      s.req ≠ DrainPhase.released ∧ s.resp ≠ DrainPhase.released) ∧
    (∀ s, connReachable s → s.main = AsmPhase.submitted →
      s.req = DrainPhase.doneWaiting ∧ s.resp = DrainPhase.doneWaiting) := by
  refine ⟨?_, ?_, ?_, ?_⟩
  · exact Relation.ReflTransGen.head (.passBarrier _ _ _)
      (Relation.ReflTransGen.head (.reqCopied _ _ _)
       (Relation.ReflTransGen.head (.reqDelivered _ _ _ (by omega))
        (Relation.ReflTransGen.head (.respCopied _ _ _)
         (Relation.ReflTransGen.head (.respDelivered _ _ _ (by omega))
          (Relation.ReflTransGen.single (.submitBatch _ _ _))))))
  · exact Relation.ReflTransGen.single (.passBarrier _ _ _)
  · intro s hs
    have hinv := connReachable_inv s hs
    exact ⟨hinv.2.1, hinv.2.2.1⟩
  · intro s hs hm
    have h4 := (connReachable_inv s hs).2.2.2
    obtain ⟨q, r, m, t⟩ := s
    cases hm
    simp only [countDone] at h4
    cases q <;> cases r <;> simp_all [countDone]

/-- C2 witness: the reachability facts applied at the initial state. -/
theorem writeWARCFromConnection_barrier_bug_witness :
    connInit.req ≠ DrainPhase.released ∧ connInit.resp ≠ DrainPhase.released :=
  writeWARCFromConnection_barrier_bug.2.2.1 connInit Relation.ReflTransGen.refl

/-- C10 witness: the successful instance on an empty scratch directory. -/
theorem dumpResponseToFile_spec_witness :
    (dumpResponseToFile crawl0 respSmall "u1" true []).1.1
      = tempFilePath crawl0.jobPath "u1" ∧
    FS.lookup (dumpResponseToFile crawl0 respSmall "u1" true []).2
      (tempFilePath crawl0.jobPath "u1") = some respSmall.serialized :=
  (dumpResponseToFile_spec crawl0 respSmall "u1" true [] rfl).2 rfl

end Zeno
